import Mathlib

/-!
A shallow embedding of the `Lexer` of `src/lexer.rs` (squirrelfmt), together
with proofs of the lexer's specified properties.

Modelling conventions:
* bytes are `Nat` values (0..255); the source buffer is a `List Nat`
  (the original stores `source.bytes().collect::<Vec<u8>>()`);
* the Rust return type `Option<Result<Token, LexerError>>` is the four-way
  `LexOut`: `tok` / `err` / `none` mirror `Some(Ok _)` / `Some(Err _)` /
  `None`, and `crash` marks the diverging `todo!()` / `unreachable!()`
  branches of the original (a panic produces no value, so the paired
  lexer state of a `crash` is irrelevant);
* `u32` / `usize` counters are `Nat`; no property below exercises
  wrap-around (it would need a source of at least 2^32 bytes);
* the identifier scan loop is written with explicit fuel
  `source.length + 1`; the fuel provably never runs out, mirroring the
  original `while let` loop that stops at the first non-identifier byte.
-/

/-! ### Byte constants (the `const ...: u8` block of the original) -/

abbrev NULL : Nat := 0
abbrev EXCLAMATION : Nat := 33
abbrev PERCENT : Nat := 37
abbrev AMPERSAND : Nat := 38
abbrev APOSTROPHE : Nat := 39
abbrev PAREN_OPEN : Nat := 40
abbrev PAREN_CLOSE : Nat := 41
abbrev ASTERISK : Nat := 42
abbrev PLUS : Nat := 43
abbrev COMMA : Nat := 44
abbrev MINUS : Nat := 45
abbrev DOT : Nat := 46
abbrev SLASH : Nat := 47
abbrev ZERO : Nat := 48
abbrev NINE : Nat := 57
abbrev COLON : Nat := 58
abbrev SEMICOLON : Nat := 59
abbrev LESS_THAN : Nat := 60
abbrev EQUAL : Nat := 61
abbrev GREATER_THAN : Nat := 62
abbrev UPPER_A : Nat := 65
abbrev UPPER_Z : Nat := 90
abbrev SQUARE_OPEN : Nat := 91
abbrev BACKSLASH : Nat := 92
abbrev SQUARE_CLOSE : Nat := 93
abbrev CARET : Nat := 94
abbrev UNDERSCORE : Nat := 95
abbrev LOWER_A : Nat := 97
abbrev LOWER_Z : Nat := 122
abbrev BRACE_OPEN : Nat := 123
abbrev BAR : Nat := 124
abbrev BRACE_CLOSE : Nat := 125
abbrev TILDE : Nat := 126

/-! ### Data model: `Position`, `TokenKind`, `Token`, `LexerError`, `Lexer` -/

/-- A symbol's exact location in source code: 1-based line and column. -/
structure Position where
  line : Nat
  column : Nat
deriving DecidableEq

/-- The kind of a `Token`; one constructor per variant of the original enum. -/
inductive TokenKind where
  | Add | AddAssign | And | Assign | Base | BitAnd | BitLeft | BitNot | BitOr
  | BitRight | BitXor | BraceClose | BraceOpen | Break | Case | Catch | Char
  | Class | Clone | Colon | Comma | Const | Constructor | Continue | Decrement
  | Default | Delete | Div | DivAssign | Dot | Ellipsis | Else | Enum | Eof
  | Eq | Extends | False | File | For | Foreach | Function | Ge | Gt
  | Identifier | If | In | Increment | Ins | InstanceOf | Le | Line | Local
  | Lt | Mod | ModAssign | Mult | MultAssign | Neq | Not | Null | Or
  | ParenClose | ParenOpen | Rawcall | Resume | Return | ScopeRes | Semicolon
  | Spaceship | SquareClose | SquareOpen | Static | Sub | SubAssign | Switch
  | This | Throw | True | Try | Typeof | UnsignedRight | While | Yield
deriving DecidableEq

/-- A token: kind, value (the bytes of the Rust `String`), start and end
position, both inclusive. -/
structure Token where
  kind : TokenKind
  value : List Nat
  startPosition : Position
  endPosition : Position
deriving DecidableEq

/-- The kind of a `LexerError`. -/
inductive LexerErrorKind where
  | CharOutOfBounds | CharTooLong | EmptyChar | UnexpectedSymbol
deriving DecidableEq

/-- An error returned by the lexer: kind and position of the offending byte. -/
structure LexerError where
  kind : LexerErrorKind
  position : Position
deriving DecidableEq

/-- The lexer state: source bytes, byte index, 1-based line and column, and
the one-shot flag recording that the Eof token has been emitted. -/
structure Lexer where
  source : List Nat
  index : Nat
  line : Nat
  column : Nat
  didSendEof : Bool
deriving DecidableEq

/-- One outcome of `next_token`: `tok` is `Some(Ok _)`, `err` is
`Some(Err _)`, `none` is `None`, and `crash` marks the `todo!()` /
`unreachable!()` branches of the original, which panic. -/
inductive LexOut where
  | tok (t : Token)
  | err (e : LexerError)
  | none
  | crash
deriving DecidableEq

/-- The byte class `UPPER_A..=UPPER_Z | LOWER_A..=LOWER_Z | UNDERSCORE`
used by the dispatch of `next_token`. -/
abbrev IsLetterOrUnderscore (b : Nat) : Prop :=
  (UPPER_A ≤ b ∧ b ≤ UPPER_Z) ∨ (LOWER_A ≤ b ∧ b ≤ LOWER_Z) ∨ b = UNDERSCORE

/-- The byte class `UPPER_A..=UPPER_Z | LOWER_A..=LOWER_Z | ZERO..=NINE |
UNDERSCORE` consumed by the identifier loop. -/
abbrev IsIdentByte (b : Nat) : Prop :=
  (UPPER_A ≤ b ∧ b ≤ UPPER_Z) ∨ (LOWER_A ≤ b ∧ b ≤ LOWER_Z) ∨
    (ZERO ≤ b ∧ b ≤ NINE) ∨ b = UNDERSCORE

/-- The byte sequence of an ASCII string literal (every keyword spelling is
ASCII, so `Char.toNat` is exactly the UTF-8 byte). -/
def bytesOf (s : String) : List Nat := s.data.map Char.toNat

namespace Lexer

/-- `Lexer::new`: all counters start at line 1, column 1. -/
def new (source : List Nat) : Lexer := ⟨source, 0, 1, 1, false⟩

/-- `Lexer::current_byte`: the byte at `index`, or the sentinel `NULL` when
`index` is out of range. -/
def currentByte (l : Lexer) : Nat := l.source.getD l.index NULL

/-- `Lexer::peek_byte`: the byte at `index + 1`, or the sentinel `NULL`. -/
def peekByte (l : Lexer) : Nat := l.source.getD (l.index + 1) NULL

/-- `Lexer::advance_char`: bump index and column, return the new current
byte (and, in this pure embedding, the new state). -/
def advanceChar (l : Lexer) : Nat × Lexer :=
  let l1 : Lexer := { l with index := l.index + 1, column := l.column + 1 }
  (currentByte l1, l1)

/-- `Lexer::advance_line`: bump index, increment line, reset column to 1.
Present in the original but never invoked by any handler. -/
def advanceLine (l : Lexer) : Lexer :=
  { l with index := l.index + 1, line := l.line + 1, column := 1 }

/-- `Lexer::terminate`: mark the Eof as sent and jump the cursor to the end
of the buffer. -/
def terminate (l : Lexer) : Lexer :=
  { l with didSendEof := true, index := l.source.length }

/-- `Lexer::token_on_line_with_value`: a token spanning from the remembered
start column to one column before the lexer's current column, on the
current line. -/
def tokenOnLineWithValue (l : Lexer) (kind : TokenKind) (value : List Nat)
    (start : Nat) : Token :=
  ⟨kind, value, ⟨l.line, start⟩, ⟨l.line, l.column - 1⟩⟩

/-- `Lexer::token_on_line`: as `tokenOnLineWithValue` with an empty value. -/
def tokenOnLine (l : Lexer) (kind : TokenKind) (start : Nat) : Token :=
  tokenOnLineWithValue l kind [] start

/-- `Lexer::eof`: on first encounter emit the Eof token (at the current
point if the column is 1, otherwise at the previous column); afterwards
return `None`. -/
def eof (l : Lexer) : LexOut × Lexer :=
  let line := l.line
  let column := l.column
  if l.didSendEof then
    (LexOut.none, l)
  else
    let l1 : Lexer := { l with didSendEof := true }
    if column = 1 then
      (LexOut.tok ⟨TokenKind.Eof, [], ⟨line, column⟩, ⟨line, column⟩⟩, l1)
    else
      (LexOut.tok (tokenOnLine l1 TokenKind.Eof (column - 1)), l1)

/-- The index reached by the identifier loop of `identifier_or_keyword`
starting at byte `i`: keep advancing while the current byte is an
identifier byte.  `fuel` bounds the recursion; `source.length + 1` is
always enough because an out-of-range read yields `NULL`, which is not an
identifier byte. -/
def scanEndAux (src : List Nat) : Nat → Nat → Nat
  | 0, i => i
  | fuel + 1, i => if IsIdentByte (src.getD i NULL) then scanEndAux src fuel (i + 1) else i

/-- The resting index of the identifier loop started at index `i`. -/
def scanEnd (src : List Nat) (i : Nat) : Nat := scanEndAux src (src.length + 1) i

/-- The length-bucketed keyword table of `identifier_or_keyword`. -/
def keywordKind (value : List Nat) : TokenKind :=
  if value.length = 2 then
    if value = bytesOf "if" then TokenKind.If
    else if value = bytesOf "in" then TokenKind.In
    else TokenKind.Identifier
  else if value.length = 3 then
    if value = bytesOf "for" then TokenKind.For
    else if value = bytesOf "try" then TokenKind.Try
    else TokenKind.Identifier
  else if value.length = 4 then
    if value = bytesOf "base" then TokenKind.Base
    else if value = bytesOf "case" then TokenKind.Case
    else if value = bytesOf "else" then TokenKind.Else
    else if value = bytesOf "enum" then TokenKind.Enum
    else if value = bytesOf "null" then TokenKind.Null
    else if value = bytesOf "this" then TokenKind.This
    else if value = bytesOf "true" then TokenKind.True
    else TokenKind.Identifier
  else if value.length = 5 then
    if value = bytesOf "break" then TokenKind.Break
    else if value = bytesOf "catch" then TokenKind.Catch
    else if value = bytesOf "class" then TokenKind.Class
    else if value = bytesOf "clone" then TokenKind.Clone
    else if value = bytesOf "const" then TokenKind.Const
    else if value = bytesOf "false" then TokenKind.False
    else if value = bytesOf "local" then TokenKind.Local
    else if value = bytesOf "throw" then TokenKind.Throw
    else if value = bytesOf "while" then TokenKind.While
    else if value = bytesOf "yield" then TokenKind.Yield
    else TokenKind.Identifier
  else if value.length = 6 then
    if value = bytesOf "delete" then TokenKind.Delete
    else if value = bytesOf "resume" then TokenKind.Resume
    else if value = bytesOf "return" then TokenKind.Return
    else if value = bytesOf "static" then TokenKind.Static
    else if value = bytesOf "switch" then TokenKind.Switch
    else if value = bytesOf "typeof" then TokenKind.Typeof
    else TokenKind.Identifier
  else if value.length = 7 then
    if value = bytesOf "default" then TokenKind.Default
    else if value = bytesOf "extends" then TokenKind.Extends
    else if value = bytesOf "foreach" then TokenKind.Foreach
    else if value = bytesOf "rawcall" then TokenKind.Rawcall
    else TokenKind.Identifier
  else if value.length = 8 then
    if value = bytesOf "__FILE__" then TokenKind.File
    else if value = bytesOf "__LINE__" then TokenKind.Line
    else if value = bytesOf "continue" then TokenKind.Continue
    else if value = bytesOf "function" then TokenKind.Function
    else TokenKind.Identifier
  else if value.length = 10 then
    if value = bytesOf "instanceof" then TokenKind.InstanceOf
    else TokenKind.Identifier
  else if value.length = 11 then
    if value = bytesOf "constructor" then TokenKind.Constructor
    else TokenKind.Identifier
  else TokenKind.Identifier

/-- `Lexer::identifier_or_keyword`: greedily consume identifier bytes
(index and column advance in lockstep), decode the consumed span, and
classify it through the length-bucketed keyword table. -/
def identifierOrKeyword (l : Lexer) : LexOut × Lexer :=
  let columnStart := l.column
  let indexStart := l.index
  let j := scanEnd l.source (l.index + 1)
  let l1 : Lexer := { l with index := j, column := l.column + (j - l.index) }
  let value := (l1.source.drop indexStart).take (l1.index - indexStart)
  let kind := keywordKind value
  if kind = TokenKind.Identifier then
    (LexOut.tok (tokenOnLineWithValue l1 kind value columnStart), l1)
  else
    (LexOut.tok (tokenOnLine l1 kind columnStart), l1)

/-- `Lexer::exclamation`: `!=` or `!`. -/
def exclamation (l : Lexer) : LexOut × Lexer :=
  let columnStart := l.column
  let p := advanceChar l
  if p.1 = EQUAL then
    let l2 := (advanceChar p.2).2
    (LexOut.tok (tokenOnLine l2 TokenKind.Neq columnStart), l2)
  else
    (LexOut.tok (tokenOnLine p.2 TokenKind.Not columnStart), p.2)

/-- `Lexer::percent`: `%=` or `%`. -/
def percent (l : Lexer) : LexOut × Lexer :=
  let columnStart := l.column
  let p := advanceChar l
  if p.1 = EQUAL then
    let l2 := (advanceChar p.2).2
    (LexOut.tok (tokenOnLine l2 TokenKind.ModAssign columnStart), l2)
  else
    (LexOut.tok (tokenOnLine p.2 TokenKind.Mod columnStart), p.2)

/-- `Lexer::ampersand`: `&&` or `&`. -/
def ampersand (l : Lexer) : LexOut × Lexer :=
  let columnStart := l.column
  let p := advanceChar l
  if p.1 = AMPERSAND then
    let l2 := (advanceChar p.2).2
    (LexOut.tok (tokenOnLine l2 TokenKind.And columnStart), l2)
  else
    (LexOut.tok (tokenOnLine p.2 TokenKind.BitAnd columnStart), p.2)

/-- `Lexer::asterisk`: `*=` or `*`. -/
def asterisk (l : Lexer) : LexOut × Lexer :=
  let columnStart := l.column
  let p := advanceChar l
  if p.1 = EQUAL then
    let l2 := (advanceChar p.2).2
    (LexOut.tok (tokenOnLine l2 TokenKind.MultAssign columnStart), l2)
  else
    (LexOut.tok (tokenOnLine p.2 TokenKind.Mult columnStart), p.2)

/-- `Lexer::plus`: `++`, `+=` or `+`. -/
def plus (l : Lexer) : LexOut × Lexer :=
  let columnStart := l.column
  let p := advanceChar l
  if p.1 = PLUS then
    let l2 := (advanceChar p.2).2
    (LexOut.tok (tokenOnLine l2 TokenKind.Increment columnStart), l2)
  else if p.1 = EQUAL then
    let l2 := (advanceChar p.2).2
    (LexOut.tok (tokenOnLine l2 TokenKind.AddAssign columnStart), l2)
  else
    (LexOut.tok (tokenOnLine p.2 TokenKind.Add columnStart), p.2)

/-- `Lexer::minus`: `--`, `-=` or `-`. -/
def minus (l : Lexer) : LexOut × Lexer :=
  let columnStart := l.column
  let p := advanceChar l
  if p.1 = MINUS then
    let l2 := (advanceChar p.2).2
    (LexOut.tok (tokenOnLine l2 TokenKind.Decrement columnStart), l2)
  else if p.1 = EQUAL then
    let l2 := (advanceChar p.2).2
    (LexOut.tok (tokenOnLine l2 TokenKind.SubAssign columnStart), l2)
  else
    (LexOut.tok (tokenOnLine p.2 TokenKind.Sub columnStart), p.2)

/-- `Lexer::slash`: `/=`, the unimplemented `//` comment (a `todo!()`
panic in the original), or `/`. -/
def slash (l : Lexer) : LexOut × Lexer :=
  let columnStart := l.column
  let p := advanceChar l
  if p.1 = EQUAL then
    let l2 := (advanceChar p.2).2
    (LexOut.tok (tokenOnLine l2 TokenKind.DivAssign columnStart), l2)
  else if p.1 = SLASH then
    (LexOut.crash, p.2)
  else
    (LexOut.tok (tokenOnLine p.2 TokenKind.Div columnStart), p.2)

/-- `Lexer::less_than`: `<-`, `<<`, `<=`, `<=>` or `<`. -/
def lessThan (l : Lexer) : LexOut × Lexer :=
  let columnStart := l.column
  let p := advanceChar l
  if p.1 = MINUS then
    let l2 := (advanceChar p.2).2
    (LexOut.tok (tokenOnLine l2 TokenKind.Ins columnStart), l2)
  else if p.1 = LESS_THAN then
    let l2 := (advanceChar p.2).2
    (LexOut.tok (tokenOnLine l2 TokenKind.BitLeft columnStart), l2)
  else if p.1 = EQUAL then
    let q := advanceChar p.2
    if q.1 = GREATER_THAN then
      let l3 := (advanceChar q.2).2
      (LexOut.tok (tokenOnLine l3 TokenKind.Spaceship columnStart), l3)
    else
      (LexOut.tok (tokenOnLine q.2 TokenKind.Le columnStart), q.2)
  else
    (LexOut.tok (tokenOnLine p.2 TokenKind.Lt columnStart), p.2)

/-- `Lexer::equal`: `==` or `=`. -/
def equal (l : Lexer) : LexOut × Lexer :=
  let columnStart := l.column
  let p := advanceChar l
  if p.1 = EQUAL then
    let l2 := (advanceChar p.2).2
    (LexOut.tok (tokenOnLine l2 TokenKind.Eq columnStart), l2)
  else
    (LexOut.tok (tokenOnLine p.2 TokenKind.Assign columnStart), p.2)

/-- `Lexer::greater_than`: `>=`, `>>`, `>>>` or `>`. -/
def greaterThan (l : Lexer) : LexOut × Lexer :=
  let columnStart := l.column
  let p := advanceChar l
  if p.1 = EQUAL then
    let l2 := (advanceChar p.2).2
    (LexOut.tok (tokenOnLine l2 TokenKind.Ge columnStart), l2)
  else if p.1 = GREATER_THAN then
    let q := advanceChar p.2
    if q.1 = GREATER_THAN then
      let l3 := (advanceChar q.2).2
      (LexOut.tok (tokenOnLine l3 TokenKind.UnsignedRight columnStart), l3)
    else
      (LexOut.tok (tokenOnLine q.2 TokenKind.BitRight columnStart), q.2)
  else
    (LexOut.tok (tokenOnLine p.2 TokenKind.Gt columnStart), p.2)

/-- `Lexer::caret`: `^`. -/
def caret (l : Lexer) : LexOut × Lexer :=
  let columnStart := l.column
  let l1 := (advanceChar l).2
  (LexOut.tok (tokenOnLine l1 TokenKind.BitXor columnStart), l1)

/-- `Lexer::bar`: `||` or `|`. -/
def bar (l : Lexer) : LexOut × Lexer :=
  let columnStart := l.column
  let p := advanceChar l
  if p.1 = BAR then
    let l2 := (advanceChar p.2).2
    (LexOut.tok (tokenOnLine l2 TokenKind.Or columnStart), l2)
  else
    (LexOut.tok (tokenOnLine p.2 TokenKind.BitOr columnStart), p.2)

/-- `Lexer::tilde`: `~`. -/
def tilde (l : Lexer) : LexOut × Lexer :=
  let columnStart := l.column
  let l1 := (advanceChar l).2
  (LexOut.tok (tokenOnLine l1 TokenKind.BitNot columnStart), l1)

/-- `Lexer::comma`: `,`. -/
def comma (l : Lexer) : LexOut × Lexer :=
  let columnStart := l.column
  let l1 := (advanceChar l).2
  (LexOut.tok (tokenOnLine l1 TokenKind.Comma columnStart), l1)

/-- `Lexer::paren`: `(` or `)`; re-reads the byte it just left to pick the
kind (`unreachable!()` otherwise). -/
def paren (l : Lexer) : LexOut × Lexer :=
  let columnStart := l.column
  let b0 := currentByte l
  let l1 := (advanceChar l).2
  if b0 = PAREN_OPEN then
    (LexOut.tok (tokenOnLine l1 TokenKind.ParenOpen columnStart), l1)
  else if b0 = PAREN_CLOSE then
    (LexOut.tok (tokenOnLine l1 TokenKind.ParenClose columnStart), l1)
  else
    (LexOut.crash, l1)

/-- `Lexer::square`: `[` or `]` (`unreachable!()` otherwise). -/
def square (l : Lexer) : LexOut × Lexer :=
  let columnStart := l.column
  let b0 := currentByte l
  let l1 := (advanceChar l).2
  if b0 = SQUARE_OPEN then
    (LexOut.tok (tokenOnLine l1 TokenKind.SquareOpen columnStart), l1)
  else if b0 = SQUARE_CLOSE then
    (LexOut.tok (tokenOnLine l1 TokenKind.SquareClose columnStart), l1)
  else
    (LexOut.crash, l1)

/-- `Lexer::brace`: `{` or `}` (`unreachable!()` otherwise). -/
def brace (l : Lexer) : LexOut × Lexer :=
  let columnStart := l.column
  let b0 := currentByte l
  let l1 := (advanceChar l).2
  if b0 = BRACE_OPEN then
    (LexOut.tok (tokenOnLine l1 TokenKind.BraceOpen columnStart), l1)
  else if b0 = BRACE_CLOSE then
    (LexOut.tok (tokenOnLine l1 TokenKind.BraceClose columnStart), l1)
  else
    (LexOut.crash, l1)

/-- `Lexer::dot`: `...`, the unimplemented lone `..` (a `todo!()` panic in
the original), or `.`. -/
def dot (l : Lexer) : LexOut × Lexer :=
  let columnStart := l.column
  let p := advanceChar l
  if p.1 = DOT then
    let q := advanceChar p.2
    if q.1 = DOT then
      let l3 := (advanceChar q.2).2
      (LexOut.tok (tokenOnLine l3 TokenKind.Ellipsis columnStart), l3)
    else
      (LexOut.crash, q.2)
  else
    (LexOut.tok (tokenOnLine p.2 TokenKind.Dot columnStart), p.2)

/-- `Lexer::colon`: `::` or `:`. -/
def colon (l : Lexer) : LexOut × Lexer :=
  let columnStart := l.column
  let p := advanceChar l
  if p.1 = COLON then
    let l2 := (advanceChar p.2).2
    (LexOut.tok (tokenOnLine l2 TokenKind.ScopeRes columnStart), l2)
  else
    (LexOut.tok (tokenOnLine p.2 TokenKind.Colon columnStart), p.2)

/-- `Lexer::semicolon`: `;`. -/
def semicolon (l : Lexer) : LexOut × Lexer :=
  let columnStart := l.column
  let l1 := (advanceChar l).2
  (LexOut.tok (tokenOnLine l1 TokenKind.Semicolon columnStart), l1)

/-- `Lexer::char`: a character literal.  Empty literal, non-ASCII byte and
over-long literal produce the respective errors followed by forced
termination; a backslash hits the unimplemented escape branch (a
`todo!()` panic in the original). -/
def char (l : Lexer) : LexOut × Lexer :=
  let columnStart := l.column
  let p := advanceChar l
  if p.1 = APOSTROPHE then
    (LexOut.err ⟨LexerErrorKind.EmptyChar, ⟨p.2.line, p.2.column⟩⟩, terminate p.2)
  else if p.1 = BACKSLASH then
    (LexOut.crash, p.2)
  else if p.1 ≤ 127 then
    let q := advanceChar p.2
    if q.1 = APOSTROPHE then
      let indexStart := q.2.index - 1
      let l3 := (advanceChar q.2).2
      let value := (l3.source.drop indexStart).take (l3.index - 1 - indexStart)
      (LexOut.tok (tokenOnLineWithValue l3 TokenKind.Char value columnStart), l3)
    else
      (LexOut.err ⟨LexerErrorKind.CharTooLong, ⟨q.2.line, q.2.column⟩⟩, terminate q.2)
  else
    (LexOut.err ⟨LexerErrorKind.CharOutOfBounds, ⟨p.2.line, p.2.column⟩⟩, terminate p.2)

/-- `Lexer::next_token`: the classification dispatch on the current byte. -/
def nextToken (l : Lexer) : LexOut × Lexer :=
  if currentByte l = NULL then eof l
  else if IsLetterOrUnderscore (currentByte l) then identifierOrKeyword l
  else if currentByte l = EXCLAMATION then exclamation l
  else if currentByte l = PERCENT then percent l
  else if currentByte l = AMPERSAND then ampersand l
  else if currentByte l = ASTERISK then asterisk l
  else if currentByte l = PLUS then plus l
  else if currentByte l = MINUS then minus l
  else if currentByte l = SLASH then slash l
  else if currentByte l = LESS_THAN then lessThan l
  else if currentByte l = EQUAL then equal l
  else if currentByte l = GREATER_THAN then greaterThan l
  else if currentByte l = CARET then caret l
  else if currentByte l = BAR then bar l
  else if currentByte l = TILDE then tilde l
  else if currentByte l = COMMA then comma l
  else if currentByte l = PAREN_OPEN ∨ currentByte l = PAREN_CLOSE then paren l
  else if currentByte l = SQUARE_OPEN ∨ currentByte l = SQUARE_CLOSE then square l
  else if currentByte l = BRACE_OPEN ∨ currentByte l = BRACE_CLOSE then brace l
  else if currentByte l = DOT then dot l
  else if currentByte l = COLON then colon l
  else if currentByte l = SEMICOLON then semicolon l
  else if currentByte l = APOSTROPHE then char l
  else
    (LexOut.err ⟨LexerErrorKind.UnexpectedSymbol, ⟨l.line, l.column⟩⟩, terminate l)

end Lexer

/-! ### Specification-side derived definitions -/

/-- Advancing the cursor by `n` bytes within one line: what `n` successive
`advance_char` calls do to the state. -/
def bump (l : Lexer) (n : Nat) : Lexer :=
  { l with index := l.index + n, column := l.column + n }

/-- Iterating `next_token` `n` times, keeping only the final state. -/
def lexIter : Nat → Lexer → Lexer
  | 0, l => l
  | n + 1, l => lexIter n (Lexer.nextToken l).2

/-- The outcomes of the first two `next_token` calls on a fresh lexer. -/
def firstTwo (bs : List Nat) : LexOut × LexOut :=
  let r := Lexer.nextToken (Lexer.new bs)
  (r.1, (Lexer.nextToken r.2).1)

/-- The cursor sits at one of the three unimplemented (`todo!()`) branches:
a `//` comment opener, a backslash escape after the opening apostrophe of
a character literal, or a two-dot sequence not extended to `...`. -/
abbrev CrashTrigger (l : Lexer) : Prop :=
  (Lexer.currentByte l = SLASH ∧ l.source.getD (l.index + 1) NULL = SLASH) ∨
  (Lexer.currentByte l = APOSTROPHE ∧ l.source.getD (l.index + 1) NULL = BACKSLASH) ∨
  (Lexer.currentByte l = DOT ∧ l.source.getD (l.index + 1) NULL = DOT ∧
    ¬ l.source.getD (l.index + 2) NULL = DOT)

/-- The bytes that have a dispatch arm in `next_token` (in dispatch order);
any other byte falls into the `UnexpectedSymbol` arm. -/
abbrev Recognized (b : Nat) : Prop :=
  b = NULL ∨ IsLetterOrUnderscore b ∨ b = EXCLAMATION ∨ b = PERCENT ∨
  b = AMPERSAND ∨ b = ASTERISK ∨ b = PLUS ∨ b = MINUS ∨ b = SLASH ∨
  b = LESS_THAN ∨ b = EQUAL ∨ b = GREATER_THAN ∨ b = CARET ∨ b = BAR ∨
  b = TILDE ∨ b = COMMA ∨ b = PAREN_OPEN ∨ b = PAREN_CLOSE ∨
  b = SQUARE_OPEN ∨ b = SQUARE_CLOSE ∨ b = BRACE_OPEN ∨ b = BRACE_CLOSE ∨
  b = DOT ∨ b = COLON ∨ b = SEMICOLON ∨ b = APOSTROPHE

/-- The 37 keyword spellings, as listed in the keyword table. -/
def kwList : List (List Nat) :=
  [bytesOf "if", bytesOf "in",
   bytesOf "for", bytesOf "try",
   bytesOf "base", bytesOf "case", bytesOf "else", bytesOf "enum",
   bytesOf "null", bytesOf "this", bytesOf "true",
   bytesOf "break", bytesOf "catch", bytesOf "class", bytesOf "clone",
   bytesOf "const", bytesOf "false", bytesOf "local", bytesOf "throw",
   bytesOf "while", bytesOf "yield",
   bytesOf "delete", bytesOf "resume", bytesOf "return", bytesOf "static",
   bytesOf "switch", bytesOf "typeof",
   bytesOf "default", bytesOf "extends", bytesOf "foreach", bytesOf "rawcall",
   bytesOf "__FILE__", bytesOf "__LINE__", bytesOf "continue", bytesOf "function",
   bytesOf "instanceof", bytesOf "constructor"]

/-- An ASCII-identifier-shaped byte string: nonempty, starting with a
letter or underscore, containing only letters, digits and underscores. -/
abbrev IdentShaped (bs : List Nat) : Prop :=
  ¬ bs = [] ∧ IsLetterOrUnderscore (bs.getD 0 NULL) ∧
    ∀ i, i < bs.length → IsIdentByte (bs.getD i NULL)

/-- The token outcome of `next_token` consumed `n` bytes on one line:
the uniform result shape shared by every non-Eof token handler. -/
abbrev TokCase (l : Lexer) (r : LexOut × Lexer) : Prop :=
  ∃ k v n, 1 ≤ n ∧ ¬ k = TokenKind.Eof ∧
    r = (LexOut.tok ⟨k, v, ⟨l.line, l.column⟩, ⟨l.line, l.column + n - 1⟩⟩, bump l n)

/-- The error outcome shape: the state was forcibly terminated. -/
abbrev ErrCase (l : Lexer) (r : LexOut × Lexer) : Prop :=
  ∃ e s, r = (LexOut.err e, s) ∧ s.didSendEof = true ∧
    s.index = s.source.length ∧ s.source = l.source ∧ s.line = l.line

/-- The crash (panic) outcome shape. -/
abbrev CrashCase (l : Lexer) (r : LexOut × Lexer) : Prop :=
  ∃ n, r = (LexOut.crash, bump l n)

/-! ### Basic lemmas about the cursor and the identifier scan -/

lemma identByte_not_null : ¬ IsIdentByte NULL := by decide

lemma identByte_lt {src : List Nat} {i : Nat}
    (h : IsIdentByte (src.getD i NULL)) : i < src.length := by
  by_contra hc
  push_neg at hc
  rw [List.getD_eq_default _ _ hc] at h
  exact identByte_not_null h

lemma scanEndAux_ge (src : List Nat) : ∀ fuel i, i ≤ Lexer.scanEndAux src fuel i := by
  intro fuel
  induction fuel with
  | zero => intro i; exact Nat.le_refl i
  | succ f ih =>
    intro i
    unfold Lexer.scanEndAux
    split
    · exact Nat.le_trans (Nat.le_succ i) (ih (i + 1))
    · exact Nat.le_refl i

lemma scanEnd_ge (src : List Nat) (i : Nat) : i ≤ Lexer.scanEnd src i :=
  scanEndAux_ge src _ i

lemma scanEndAux_all (src : List Nat) :
    ∀ fuel i, i ≤ src.length →
      (∀ j, i ≤ j → j < src.length → IsIdentByte (src.getD j NULL)) →
      src.length - i < fuel →
      Lexer.scanEndAux src fuel i = src.length := by
  intro fuel
  induction fuel with
  | zero => intro i h1 h2 h3; omega
  | succ f ih =>
    intro i h1 h2 h3
    unfold Lexer.scanEndAux
    by_cases hb : IsIdentByte (src.getD i NULL)
    · rw [if_pos hb]
      have hi : i < src.length := identByte_lt hb
      exact ih (i + 1) (by omega) (fun j hj1 hj2 => h2 j (by omega) hj2) (by omega)
    · rw [if_neg hb]
      rcases Nat.lt_or_ge i src.length with hlt | hge
      · exact absurd (h2 i (Nat.le_refl i) hlt) hb
      · omega

lemma scanEnd_all (src : List Nat) (i : Nat) (h1 : i ≤ src.length)
    (h2 : ∀ j, i ≤ j → j < src.length → IsIdentByte (src.getD j NULL)) :
    Lexer.scanEnd src i = src.length :=
  scanEndAux_all src _ i h1 h2 (by omega)


/-! ### Lemmas about the keyword table -/

lemma bytesOf_if : bytesOf "if" = [105,102] := by decide
lemma bytesOf_in : bytesOf "in" = [105,110] := by decide
lemma bytesOf_for : bytesOf "for" = [102,111,114] := by decide
lemma bytesOf_try : bytesOf "try" = [116,114,121] := by decide
lemma bytesOf_base : bytesOf "base" = [98,97,115,101] := by decide
lemma bytesOf_case : bytesOf "case" = [99,97,115,101] := by decide
lemma bytesOf_else : bytesOf "else" = [101,108,115,101] := by decide
lemma bytesOf_enum : bytesOf "enum" = [101,110,117,109] := by decide
lemma bytesOf_null : bytesOf "null" = [110,117,108,108] := by decide
lemma bytesOf_this : bytesOf "this" = [116,104,105,115] := by decide
lemma bytesOf_true : bytesOf "true" = [116,114,117,101] := by decide
lemma bytesOf_break : bytesOf "break" = [98,114,101,97,107] := by decide
lemma bytesOf_catch : bytesOf "catch" = [99,97,116,99,104] := by decide
lemma bytesOf_class : bytesOf "class" = [99,108,97,115,115] := by decide
lemma bytesOf_clone : bytesOf "clone" = [99,108,111,110,101] := by decide
lemma bytesOf_const : bytesOf "const" = [99,111,110,115,116] := by decide
lemma bytesOf_false : bytesOf "false" = [102,97,108,115,101] := by decide
lemma bytesOf_local : bytesOf "local" = [108,111,99,97,108] := by decide
lemma bytesOf_throw : bytesOf "throw" = [116,104,114,111,119] := by decide
lemma bytesOf_while : bytesOf "while" = [119,104,105,108,101] := by decide
lemma bytesOf_yield : bytesOf "yield" = [121,105,101,108,100] := by decide
lemma bytesOf_delete : bytesOf "delete" = [100,101,108,101,116,101] := by decide
lemma bytesOf_resume : bytesOf "resume" = [114,101,115,117,109,101] := by decide
lemma bytesOf_return : bytesOf "return" = [114,101,116,117,114,110] := by decide
lemma bytesOf_static : bytesOf "static" = [115,116,97,116,105,99] := by decide
lemma bytesOf_switch : bytesOf "switch" = [115,119,105,116,99,104] := by decide
lemma bytesOf_typeof : bytesOf "typeof" = [116,121,112,101,111,102] := by decide
lemma bytesOf_default : bytesOf "default" = [100,101,102,97,117,108,116] := by decide
lemma bytesOf_extends : bytesOf "extends" = [101,120,116,101,110,100,115] := by decide
lemma bytesOf_foreach : bytesOf "foreach" = [102,111,114,101,97,99,104] := by decide
lemma bytesOf_rawcall : bytesOf "rawcall" = [114,97,119,99,97,108,108] := by decide
lemma bytesOf_fileKw : bytesOf "__FILE__" = [95,95,70,73,76,69,95,95] := by decide
lemma bytesOf_lineKw : bytesOf "__LINE__" = [95,95,76,73,78,69,95,95] := by decide
lemma bytesOf_continue : bytesOf "continue" = [99,111,110,116,105,110,117,101] := by decide
lemma bytesOf_function : bytesOf "function" = [102,117,110,99,116,105,111,110] := by decide
lemma bytesOf_instanceof : bytesOf "instanceof" = [105,110,115,116,97,110,99,101,111,102] := by decide
lemma bytesOf_constructor : bytesOf "constructor" = [99,111,110,115,116,114,117,99,116,111,114] := by decide


lemma kwList_eval : kwList =
    [[105,102], [105,110], [102,111,114], [116,114,121], [98,97,115,101], [99,97,115,101],
     [101,108,115,101], [101,110,117,109], [110,117,108,108], [116,104,105,115], [116,114,117,101],
     [98,114,101,97,107], [99,97,116,99,104], [99,108,97,115,115], [99,108,111,110,101],
     [99,111,110,115,116], [102,97,108,115,101], [108,111,99,97,108], [116,104,114,111,119],
     [119,104,105,108,101], [121,105,101,108,100], [100,101,108,101,116,101],
     [114,101,115,117,109,101], [114,101,116,117,114,110], [115,116,97,116,105,99],
     [115,119,105,116,99,104], [116,121,112,101,111,102], [100,101,102,97,117,108,116],
     [101,120,116,101,110,100,115], [102,111,114,101,97,99,104], [114,97,119,99,97,108,108],
     [95,95,70,73,76,69,95,95], [95,95,76,73,78,69,95,95], [99,111,110,116,105,110,117,101],
     [102,117,110,99,116,105,111,110], [105,110,115,116,97,110,99,101,111,102],
     [99,111,110,115,116,114,117,99,116,111,114]] := by
  simp only [kwList, bytesOf_if, bytesOf_in, bytesOf_for, bytesOf_try, bytesOf_base, bytesOf_case, bytesOf_else, bytesOf_enum, bytesOf_null, bytesOf_this, bytesOf_true, bytesOf_break, bytesOf_catch, bytesOf_class, bytesOf_clone, bytesOf_const, bytesOf_false, bytesOf_local, bytesOf_throw, bytesOf_while, bytesOf_yield, bytesOf_delete, bytesOf_resume, bytesOf_return, bytesOf_static, bytesOf_switch, bytesOf_typeof, bytesOf_default, bytesOf_extends, bytesOf_foreach, bytesOf_rawcall, bytesOf_fileKw, bytesOf_lineKw, bytesOf_continue, bytesOf_function, bytesOf_instanceof, bytesOf_constructor]
lemma keywordKind_identifier_of_not_mem {v : List Nat} (h : ¬ v ∈ kwList) :
    Lexer.keywordKind v = TokenKind.Identifier := by
  rw [kwList_eval] at h
  unfold Lexer.keywordKind
  simp only [bytesOf_if, bytesOf_in, bytesOf_for, bytesOf_try, bytesOf_base, bytesOf_case, bytesOf_else, bytesOf_enum, bytesOf_null, bytesOf_this, bytesOf_true, bytesOf_break, bytesOf_catch, bytesOf_class, bytesOf_clone, bytesOf_const, bytesOf_false, bytesOf_local, bytesOf_throw, bytesOf_while, bytesOf_yield, bytesOf_delete, bytesOf_resume, bytesOf_return, bytesOf_static, bytesOf_switch, bytesOf_typeof, bytesOf_default, bytesOf_extends, bytesOf_foreach, bytesOf_rawcall, bytesOf_fileKw, bytesOf_lineKw, bytesOf_continue, bytesOf_function, bytesOf_instanceof, bytesOf_constructor]
  by_cases hl2 : v.length = 2
  · rw [if_pos hl2, if_neg (show ¬ v = [105,102] from fun hv => h (by rw [hv]; decide)), if_neg (show ¬ v = [105,110] from fun hv => h (by rw [hv]; decide))]
  rw [if_neg hl2]
  by_cases hl3 : v.length = 3
  · rw [if_pos hl3, if_neg (show ¬ v = [102,111,114] from fun hv => h (by rw [hv]; decide)), if_neg (show ¬ v = [116,114,121] from fun hv => h (by rw [hv]; decide))]
  rw [if_neg hl3]
  by_cases hl4 : v.length = 4
  · rw [if_pos hl4, if_neg (show ¬ v = [98,97,115,101] from fun hv => h (by rw [hv]; decide)), if_neg (show ¬ v = [99,97,115,101] from fun hv => h (by rw [hv]; decide)), if_neg (show ¬ v = [101,108,115,101] from fun hv => h (by rw [hv]; decide)), if_neg (show ¬ v = [101,110,117,109] from fun hv => h (by rw [hv]; decide)), if_neg (show ¬ v = [110,117,108,108] from fun hv => h (by rw [hv]; decide)), if_neg (show ¬ v = [116,104,105,115] from fun hv => h (by rw [hv]; decide)), if_neg (show ¬ v = [116,114,117,101] from fun hv => h (by rw [hv]; decide))]
  rw [if_neg hl4]
  by_cases hl5 : v.length = 5
  · rw [if_pos hl5, if_neg (show ¬ v = [98,114,101,97,107] from fun hv => h (by rw [hv]; decide)), if_neg (show ¬ v = [99,97,116,99,104] from fun hv => h (by rw [hv]; decide)), if_neg (show ¬ v = [99,108,97,115,115] from fun hv => h (by rw [hv]; decide)), if_neg (show ¬ v = [99,108,111,110,101] from fun hv => h (by rw [hv]; decide)), if_neg (show ¬ v = [99,111,110,115,116] from fun hv => h (by rw [hv]; decide)), if_neg (show ¬ v = [102,97,108,115,101] from fun hv => h (by rw [hv]; decide)), if_neg (show ¬ v = [108,111,99,97,108] from fun hv => h (by rw [hv]; decide)), if_neg (show ¬ v = [116,104,114,111,119] from fun hv => h (by rw [hv]; decide)), if_neg (show ¬ v = [119,104,105,108,101] from fun hv => h (by rw [hv]; decide)), if_neg (show ¬ v = [121,105,101,108,100] from fun hv => h (by rw [hv]; decide))]
  rw [if_neg hl5]
  by_cases hl6 : v.length = 6
  · rw [if_pos hl6, if_neg (show ¬ v = [100,101,108,101,116,101] from fun hv => h (by rw [hv]; decide)), if_neg (show ¬ v = [114,101,115,117,109,101] from fun hv => h (by rw [hv]; decide)), if_neg (show ¬ v = [114,101,116,117,114,110] from fun hv => h (by rw [hv]; decide)), if_neg (show ¬ v = [115,116,97,116,105,99] from fun hv => h (by rw [hv]; decide)), if_neg (show ¬ v = [115,119,105,116,99,104] from fun hv => h (by rw [hv]; decide)), if_neg (show ¬ v = [116,121,112,101,111,102] from fun hv => h (by rw [hv]; decide))]
  rw [if_neg hl6]
  by_cases hl7 : v.length = 7
  · rw [if_pos hl7, if_neg (show ¬ v = [100,101,102,97,117,108,116] from fun hv => h (by rw [hv]; decide)), if_neg (show ¬ v = [101,120,116,101,110,100,115] from fun hv => h (by rw [hv]; decide)), if_neg (show ¬ v = [102,111,114,101,97,99,104] from fun hv => h (by rw [hv]; decide)), if_neg (show ¬ v = [114,97,119,99,97,108,108] from fun hv => h (by rw [hv]; decide))]
  rw [if_neg hl7]
  by_cases hl8 : v.length = 8
  · rw [if_pos hl8, if_neg (show ¬ v = [95,95,70,73,76,69,95,95] from fun hv => h (by rw [hv]; decide)), if_neg (show ¬ v = [95,95,76,73,78,69,95,95] from fun hv => h (by rw [hv]; decide)), if_neg (show ¬ v = [99,111,110,116,105,110,117,101] from fun hv => h (by rw [hv]; decide)), if_neg (show ¬ v = [102,117,110,99,116,105,111,110] from fun hv => h (by rw [hv]; decide))]
  rw [if_neg hl8]
  by_cases hl10 : v.length = 10
  · rw [if_pos hl10, if_neg (show ¬ v = [105,110,115,116,97,110,99,101,111,102] from fun hv => h (by rw [hv]; decide))]
  rw [if_neg hl10]
  by_cases hl11 : v.length = 11
  · rw [if_pos hl11, if_neg (show ¬ v = [99,111,110,115,116,114,117,99,116,111,114] from fun hv => h (by rw [hv]; decide))]
  rw [if_neg hl11]

lemma keywordKind_mem_spec {v : List Nat} (h : v ∈ kwList) :
    ¬ Lexer.keywordKind v = TokenKind.Identifier ∧ ¬ Lexer.keywordKind v = TokenKind.Eof := by
  rw [kwList_eval] at h
  simp only [List.mem_cons, List.not_mem_nil, or_false] at h
  rcases h with rfl | rfl | rfl | rfl | rfl | rfl | rfl | rfl | rfl | rfl | rfl |
    rfl | rfl | rfl | rfl | rfl | rfl | rfl | rfl | rfl | rfl | rfl | rfl | rfl |
    rfl | rfl | rfl | rfl | rfl | rfl | rfl | rfl | rfl | rfl | rfl | rfl | rfl <;>
    exact ⟨by decide, by decide⟩

lemma keywordKind_ne_eof (v : List Nat) : ¬ Lexer.keywordKind v = TokenKind.Eof := by
  by_cases h : v ∈ kwList
  · exact (keywordKind_mem_spec h).2
  · rw [keywordKind_identifier_of_not_mem h]; decide

lemma keywordKind_ne_identifier_of_mem {v : List Nat} (h : v ∈ kwList) :
    ¬ Lexer.keywordKind v = TokenKind.Identifier :=
  (keywordKind_mem_spec h).1

/-! ### Per-handler outcome lemmas -/

lemma exclamation_tokCase (l : Lexer) : TokCase l (Lexer.exclamation l) := by
  unfold TokCase
  simp only [Lexer.exclamation, Lexer.advanceChar, Lexer.tokenOnLine, Lexer.tokenOnLineWithValue]
  split_ifs with h1
  · exact ⟨TokenKind.Neq, [], 2, by omega, by decide, rfl⟩
  · exact ⟨TokenKind.Not, [], 1, by omega, by decide, rfl⟩

lemma percent_tokCase (l : Lexer) : TokCase l (Lexer.percent l) := by
  unfold TokCase
  simp only [Lexer.percent, Lexer.advanceChar, Lexer.tokenOnLine, Lexer.tokenOnLineWithValue]
  split_ifs with h1
  · exact ⟨TokenKind.ModAssign, [], 2, by omega, by decide, rfl⟩
  · exact ⟨TokenKind.Mod, [], 1, by omega, by decide, rfl⟩

lemma ampersand_tokCase (l : Lexer) : TokCase l (Lexer.ampersand l) := by
  unfold TokCase
  simp only [Lexer.ampersand, Lexer.advanceChar, Lexer.tokenOnLine, Lexer.tokenOnLineWithValue]
  split_ifs with h1
  · exact ⟨TokenKind.And, [], 2, by omega, by decide, rfl⟩
  · exact ⟨TokenKind.BitAnd, [], 1, by omega, by decide, rfl⟩

lemma asterisk_tokCase (l : Lexer) : TokCase l (Lexer.asterisk l) := by
  unfold TokCase
  simp only [Lexer.asterisk, Lexer.advanceChar, Lexer.tokenOnLine, Lexer.tokenOnLineWithValue]
  split_ifs with h1
  · exact ⟨TokenKind.MultAssign, [], 2, by omega, by decide, rfl⟩
  · exact ⟨TokenKind.Mult, [], 1, by omega, by decide, rfl⟩

lemma plus_tokCase (l : Lexer) : TokCase l (Lexer.plus l) := by
  unfold TokCase
  simp only [Lexer.plus, Lexer.advanceChar, Lexer.tokenOnLine, Lexer.tokenOnLineWithValue]
  split_ifs with h1 h2
  · exact ⟨TokenKind.Increment, [], 2, by omega, by decide, rfl⟩
  · exact ⟨TokenKind.AddAssign, [], 2, by omega, by decide, rfl⟩
  · exact ⟨TokenKind.Add, [], 1, by omega, by decide, rfl⟩

lemma minus_tokCase (l : Lexer) : TokCase l (Lexer.minus l) := by
  unfold TokCase
  simp only [Lexer.minus, Lexer.advanceChar, Lexer.tokenOnLine, Lexer.tokenOnLineWithValue]
  split_ifs with h1 h2
  · exact ⟨TokenKind.Decrement, [], 2, by omega, by decide, rfl⟩
  · exact ⟨TokenKind.SubAssign, [], 2, by omega, by decide, rfl⟩
  · exact ⟨TokenKind.Sub, [], 1, by omega, by decide, rfl⟩

lemma slash_cases (l : Lexer) :
    TokCase l (Lexer.slash l) ∨
      (l.source.getD (l.index + 1) NULL = SLASH ∧ CrashCase l (Lexer.slash l)) := by
  unfold TokCase CrashCase
  simp only [Lexer.slash, Lexer.advanceChar, Lexer.currentByte, Lexer.tokenOnLine,
    Lexer.tokenOnLineWithValue]
  split_ifs with h1 h2
  · exact Or.inl ⟨TokenKind.DivAssign, [], 2, by omega, by decide, rfl⟩
  · exact Or.inr ⟨h2, 1, rfl⟩
  · exact Or.inl ⟨TokenKind.Div, [], 1, by omega, by decide, rfl⟩

lemma lessThan_tokCase (l : Lexer) : TokCase l (Lexer.lessThan l) := by
  unfold TokCase
  simp only [Lexer.lessThan, Lexer.advanceChar, Lexer.tokenOnLine, Lexer.tokenOnLineWithValue]
  split_ifs with h1 h2 h3 h4
  · exact ⟨TokenKind.Ins, [], 2, by omega, by decide, rfl⟩
  · exact ⟨TokenKind.BitLeft, [], 2, by omega, by decide, rfl⟩
  · exact ⟨TokenKind.Spaceship, [], 3, by omega, by decide, rfl⟩
  · exact ⟨TokenKind.Le, [], 2, by omega, by decide, rfl⟩
  · exact ⟨TokenKind.Lt, [], 1, by omega, by decide, rfl⟩

lemma equal_tokCase (l : Lexer) : TokCase l (Lexer.equal l) := by
  unfold TokCase
  simp only [Lexer.equal, Lexer.advanceChar, Lexer.tokenOnLine, Lexer.tokenOnLineWithValue]
  split_ifs with h1
  · exact ⟨TokenKind.Eq, [], 2, by omega, by decide, rfl⟩
  · exact ⟨TokenKind.Assign, [], 1, by omega, by decide, rfl⟩

lemma greaterThan_tokCase (l : Lexer) : TokCase l (Lexer.greaterThan l) := by
  unfold TokCase
  simp only [Lexer.greaterThan, Lexer.advanceChar, Lexer.tokenOnLine, Lexer.tokenOnLineWithValue]
  split_ifs with h1 h2 h3
  · exact ⟨TokenKind.Ge, [], 2, by omega, by decide, rfl⟩
  · exact ⟨TokenKind.UnsignedRight, [], 3, by omega, by decide, rfl⟩
  · exact ⟨TokenKind.BitRight, [], 2, by omega, by decide, rfl⟩
  · exact ⟨TokenKind.Gt, [], 1, by omega, by decide, rfl⟩

lemma caret_tokCase (l : Lexer) : TokCase l (Lexer.caret l) := by
  unfold TokCase
  simp only [Lexer.caret, Lexer.advanceChar, Lexer.tokenOnLine, Lexer.tokenOnLineWithValue]
  exact ⟨TokenKind.BitXor, [], 1, by omega, by decide, rfl⟩

lemma bar_tokCase (l : Lexer) : TokCase l (Lexer.bar l) := by
  unfold TokCase
  simp only [Lexer.bar, Lexer.advanceChar, Lexer.tokenOnLine, Lexer.tokenOnLineWithValue]
  split_ifs with h1
  · exact ⟨TokenKind.Or, [], 2, by omega, by decide, rfl⟩
  · exact ⟨TokenKind.BitOr, [], 1, by omega, by decide, rfl⟩

lemma tilde_tokCase (l : Lexer) : TokCase l (Lexer.tilde l) := by
  unfold TokCase
  simp only [Lexer.tilde, Lexer.advanceChar, Lexer.tokenOnLine, Lexer.tokenOnLineWithValue]
  exact ⟨TokenKind.BitNot, [], 1, by omega, by decide, rfl⟩

lemma comma_tokCase (l : Lexer) : TokCase l (Lexer.comma l) := by
  unfold TokCase
  simp only [Lexer.comma, Lexer.advanceChar, Lexer.tokenOnLine, Lexer.tokenOnLineWithValue]
  exact ⟨TokenKind.Comma, [], 1, by omega, by decide, rfl⟩

lemma paren_cases (l : Lexer) :
    TokCase l (Lexer.paren l) ∨
      (¬ Lexer.currentByte l = PAREN_OPEN ∧ ¬ Lexer.currentByte l = PAREN_CLOSE) := by
  unfold TokCase
  simp only [Lexer.paren, Lexer.advanceChar, Lexer.tokenOnLine, Lexer.tokenOnLineWithValue]
  split_ifs with h1 h2
  · exact Or.inl ⟨TokenKind.ParenOpen, [], 1, by omega, by decide, rfl⟩
  · exact Or.inl ⟨TokenKind.ParenClose, [], 1, by omega, by decide, rfl⟩
  · exact Or.inr ⟨h1, h2⟩

lemma square_cases (l : Lexer) :
    TokCase l (Lexer.square l) ∨
      (¬ Lexer.currentByte l = SQUARE_OPEN ∧ ¬ Lexer.currentByte l = SQUARE_CLOSE) := by
  unfold TokCase
  simp only [Lexer.square, Lexer.advanceChar, Lexer.tokenOnLine, Lexer.tokenOnLineWithValue]
  split_ifs with h1 h2
  · exact Or.inl ⟨TokenKind.SquareOpen, [], 1, by omega, by decide, rfl⟩
  · exact Or.inl ⟨TokenKind.SquareClose, [], 1, by omega, by decide, rfl⟩
  · exact Or.inr ⟨h1, h2⟩

lemma brace_cases (l : Lexer) :
    TokCase l (Lexer.brace l) ∨
      (¬ Lexer.currentByte l = BRACE_OPEN ∧ ¬ Lexer.currentByte l = BRACE_CLOSE) := by
  unfold TokCase
  simp only [Lexer.brace, Lexer.advanceChar, Lexer.tokenOnLine, Lexer.tokenOnLineWithValue]
  split_ifs with h1 h2
  · exact Or.inl ⟨TokenKind.BraceOpen, [], 1, by omega, by decide, rfl⟩
  · exact Or.inl ⟨TokenKind.BraceClose, [], 1, by omega, by decide, rfl⟩
  · exact Or.inr ⟨h1, h2⟩

lemma dot_cases (l : Lexer) :
    TokCase l (Lexer.dot l) ∨
      ((l.source.getD (l.index + 1) NULL = DOT ∧ ¬ l.source.getD (l.index + 2) NULL = DOT) ∧
        CrashCase l (Lexer.dot l)) := by
  unfold TokCase CrashCase
  simp only [Lexer.dot, Lexer.advanceChar, Lexer.currentByte, Lexer.tokenOnLine,
    Lexer.tokenOnLineWithValue]
  split_ifs with h1 h2
  · exact Or.inl ⟨TokenKind.Ellipsis, [], 3, by omega, by decide, rfl⟩
  · exact Or.inr ⟨⟨h1, h2⟩, 2, rfl⟩
  · exact Or.inl ⟨TokenKind.Dot, [], 1, by omega, by decide, rfl⟩

lemma colon_tokCase (l : Lexer) : TokCase l (Lexer.colon l) := by
  unfold TokCase
  simp only [Lexer.colon, Lexer.advanceChar, Lexer.tokenOnLine, Lexer.tokenOnLineWithValue]
  split_ifs with h1
  · exact ⟨TokenKind.ScopeRes, [], 2, by omega, by decide, rfl⟩
  · exact ⟨TokenKind.Colon, [], 1, by omega, by decide, rfl⟩

lemma semicolon_tokCase (l : Lexer) : TokCase l (Lexer.semicolon l) := by
  unfold TokCase
  simp only [Lexer.semicolon, Lexer.advanceChar, Lexer.tokenOnLine, Lexer.tokenOnLineWithValue]
  exact ⟨TokenKind.Semicolon, [], 1, by omega, by decide, rfl⟩

lemma char_cases (l : Lexer) :
    TokCase l (Lexer.char l) ∨ ErrCase l (Lexer.char l) ∨
      (l.source.getD (l.index + 1) NULL = BACKSLASH ∧ CrashCase l (Lexer.char l)) := by
  unfold TokCase ErrCase CrashCase
  simp only [Lexer.char, Lexer.advanceChar, Lexer.currentByte, Lexer.tokenOnLine,
    Lexer.tokenOnLineWithValue]
  split_ifs with h1 h2 h3 h4
  · exact Or.inr (Or.inl ⟨_, _, rfl, rfl, rfl, rfl, rfl⟩)
  · exact Or.inr (Or.inr ⟨h2, 1, rfl⟩)
  · exact Or.inl ⟨TokenKind.Char, _, 3, by omega, by decide, rfl⟩
  · exact Or.inr (Or.inl ⟨_, _, rfl, rfl, rfl, rfl, rfl⟩)
  · exact Or.inr (Or.inl ⟨_, _, rfl, rfl, rfl, rfl, rfl⟩)

lemma identifierOrKeyword_tokCase (l : Lexer) : TokCase l (Lexer.identifierOrKeyword l) := by
  have hge : l.index + 1 ≤ Lexer.scanEnd l.source (l.index + 1) := scanEnd_ge _ _
  unfold TokCase
  simp only [Lexer.identifierOrKeyword, Lexer.tokenOnLine, Lexer.tokenOnLineWithValue]
  split_ifs with hk
  · refine ⟨TokenKind.Identifier,
      List.take (Lexer.scanEnd l.source (l.index + 1) - l.index) (List.drop l.index l.source),
      Lexer.scanEnd l.source (l.index + 1) - l.index, by omega, by decide, ?_⟩
    rw [hk]
    simp only [bump]
    rw [show l.index + (Lexer.scanEnd l.source (l.index + 1) - l.index) =
        Lexer.scanEnd l.source (l.index + 1) from by omega]
  · refine ⟨Lexer.keywordKind
      (List.take (Lexer.scanEnd l.source (l.index + 1) - l.index) (List.drop l.index l.source)), [],
      Lexer.scanEnd l.source (l.index + 1) - l.index, by omega, keywordKind_ne_eof _, ?_⟩
    simp only [bump]
    rw [show l.index + (Lexer.scanEnd l.source (l.index + 1) - l.index) =
        Lexer.scanEnd l.source (l.index + 1) from by omega]

/-! ### The dispatch lemma and the end-of-stream characterization -/

lemma nextToken_dispatch_cases (l : Lexer) (h0 : ¬ Lexer.currentByte l = NULL) :
    TokCase l (Lexer.nextToken l) ∨ ErrCase l (Lexer.nextToken l) ∨
      (CrashTrigger l ∧ CrashCase l (Lexer.nextToken l)) := by
  unfold Lexer.nextToken
  rw [if_neg h0]
  by_cases hA : IsLetterOrUnderscore (Lexer.currentByte l)
  · rw [if_pos hA]
    exact Or.inl (identifierOrKeyword_tokCase l)
  rw [if_neg hA]
  by_cases h1 : Lexer.currentByte l = EXCLAMATION
  · rw [if_pos h1]
    exact Or.inl (exclamation_tokCase l)
  rw [if_neg h1]
  by_cases h2 : Lexer.currentByte l = PERCENT
  · rw [if_pos h2]
    exact Or.inl (percent_tokCase l)
  rw [if_neg h2]
  by_cases h3 : Lexer.currentByte l = AMPERSAND
  · rw [if_pos h3]
    exact Or.inl (ampersand_tokCase l)
  rw [if_neg h3]
  by_cases h4 : Lexer.currentByte l = ASTERISK
  · rw [if_pos h4]
    exact Or.inl (asterisk_tokCase l)
  rw [if_neg h4]
  by_cases h5 : Lexer.currentByte l = PLUS
  · rw [if_pos h5]
    exact Or.inl (plus_tokCase l)
  rw [if_neg h5]
  by_cases h6 : Lexer.currentByte l = MINUS
  · rw [if_pos h6]
    exact Or.inl (minus_tokCase l)
  rw [if_neg h6]
  by_cases h7 : Lexer.currentByte l = SLASH
  · rw [if_pos h7]
    rcases slash_cases l with h | ⟨ht, hc⟩
    · exact Or.inl h
    · exact Or.inr (Or.inr ⟨Or.inl ⟨h7, ht⟩, hc⟩)
  rw [if_neg h7]
  by_cases h8 : Lexer.currentByte l = LESS_THAN
  · rw [if_pos h8]
    exact Or.inl (lessThan_tokCase l)
  rw [if_neg h8]
  by_cases h9 : Lexer.currentByte l = EQUAL
  · rw [if_pos h9]
    exact Or.inl (equal_tokCase l)
  rw [if_neg h9]
  by_cases h10 : Lexer.currentByte l = GREATER_THAN
  · rw [if_pos h10]
    exact Or.inl (greaterThan_tokCase l)
  rw [if_neg h10]
  by_cases h11 : Lexer.currentByte l = CARET
  · rw [if_pos h11]
    exact Or.inl (caret_tokCase l)
  rw [if_neg h11]
  by_cases h12 : Lexer.currentByte l = BAR
  · rw [if_pos h12]
    exact Or.inl (bar_tokCase l)
  rw [if_neg h12]
  by_cases h13 : Lexer.currentByte l = TILDE
  · rw [if_pos h13]
    exact Or.inl (tilde_tokCase l)
  rw [if_neg h13]
  by_cases h14 : Lexer.currentByte l = COMMA
  · rw [if_pos h14]
    exact Or.inl (comma_tokCase l)
  rw [if_neg h14]
  by_cases h15 : Lexer.currentByte l = PAREN_OPEN ∨ Lexer.currentByte l = PAREN_CLOSE
  · rw [if_pos h15]
    rcases paren_cases l with h | ⟨hn1, hn2⟩
    · exact Or.inl h
    · rcases h15 with h | h
      · exact absurd h hn1
      · exact absurd h hn2
  rw [if_neg h15]
  by_cases h16 : Lexer.currentByte l = SQUARE_OPEN ∨ Lexer.currentByte l = SQUARE_CLOSE
  · rw [if_pos h16]
    rcases square_cases l with h | ⟨hn1, hn2⟩
    · exact Or.inl h
    · rcases h16 with h | h
      · exact absurd h hn1
      · exact absurd h hn2
  rw [if_neg h16]
  by_cases h17 : Lexer.currentByte l = BRACE_OPEN ∨ Lexer.currentByte l = BRACE_CLOSE
  · rw [if_pos h17]
    rcases brace_cases l with h | ⟨hn1, hn2⟩
    · exact Or.inl h
    · rcases h17 with h | h
      · exact absurd h hn1
      · exact absurd h hn2
  rw [if_neg h17]
  by_cases h18 : Lexer.currentByte l = DOT
  · rw [if_pos h18]
    rcases dot_cases l with h | ⟨ht, hc⟩
    · exact Or.inl h
    · exact Or.inr (Or.inr ⟨Or.inr (Or.inr ⟨h18, ht.1, ht.2⟩), hc⟩)
  rw [if_neg h18]
  by_cases h19 : Lexer.currentByte l = COLON
  · rw [if_pos h19]
    exact Or.inl (colon_tokCase l)
  rw [if_neg h19]
  by_cases h20 : Lexer.currentByte l = SEMICOLON
  · rw [if_pos h20]
    exact Or.inl (semicolon_tokCase l)
  rw [if_neg h20]
  by_cases h21 : Lexer.currentByte l = APOSTROPHE
  · rw [if_pos h21]
    rcases char_cases l with h | h | ⟨ht, hc⟩
    · exact Or.inl h
    · exact Or.inr (Or.inl h)
    · exact Or.inr (Or.inr ⟨Or.inr (Or.inl ⟨h21, ht⟩), hc⟩)
  rw [if_neg h21]
  exact Or.inr (Or.inl ⟨_, _, rfl, rfl, rfl, rfl, rfl⟩)

lemma nextToken_eq_eof (l : Lexer) (h : Lexer.currentByte l = NULL) :
    Lexer.nextToken l = Lexer.eof l := by
  unfold Lexer.nextToken
  rw [if_pos h]

lemma eof_none (l : Lexer) (h : l.didSendEof = true) :
    Lexer.eof l = (LexOut.none, l) := by
  simp only [Lexer.eof, h, if_true]

lemma eof_tok (l : Lexer) (h : l.didSendEof = false) :
    Lexer.eof l =
      (LexOut.tok ⟨TokenKind.Eof, [],
          ⟨l.line, if l.column = 1 then l.column else l.column - 1⟩,
          ⟨l.line, if l.column = 1 then l.column else l.column - 1⟩⟩,
        { l with didSendEof := true }) := by
  simp only [Lexer.eof, Lexer.tokenOnLine, Lexer.tokenOnLineWithValue, h,
    Bool.false_eq_true, if_false]
  split_ifs with hc <;> rfl

lemma currentByte_of_index_ge {l : Lexer} (h : l.source.length ≤ l.index) :
    Lexer.currentByte l = NULL :=
  List.getD_eq_default _ _ h

lemma exhausted_next (l : Lexer) (h1 : l.didSendEof = true)
    (h2 : Lexer.currentByte l = NULL) : Lexer.nextToken l = (LexOut.none, l) := by
  rw [nextToken_eq_eof l h2, eof_none l h1]

lemma exhausted_lexIter (l : Lexer) (h1 : l.didSendEof = true)
    (h2 : Lexer.currentByte l = NULL) : ∀ n, lexIter n l = l := by
  intro n
  induction n with
  | zero => rfl
  | succ m ih =>
    show lexIter m (Lexer.nextToken l).2 = l
    rw [exhausted_next l h1 h2]
    exact ih

/-! ### Claim theorems -/

/-- C1 counterexample: the input `"//"` reaches the unimplemented line-comment
branch of `Lexer::slash`, whose `todo!()` panics — modelled here as the
`crash` outcome — so `next_token` does not return `Some(Ok _)`,
`Some(Err _)` or `None` on this finite input. -/
theorem nextToken_comment_input_crashes :
    (Lexer.nextToken (Lexer.new (bytesOf "//"))).1 = LexOut.crash := by decide

/-- C1 (amended): for every lexer state that is not sitting at one of the
three unimplemented `todo!()` branches (`//`, a backslash escape in a
character literal, or a two-dot sequence not extended to `...`),
`next_token` returns a token, an error, or `None` — it never panics, and by
construction of `current_byte` it never reads past the source buffer. -/
theorem nextToken_total_outside_todo (l : Lexer) (h : ¬ CrashTrigger l) :
    (∃ t, (Lexer.nextToken l).1 = LexOut.tok t) ∨
    (∃ e, (Lexer.nextToken l).1 = LexOut.err e) ∨
    (Lexer.nextToken l).1 = LexOut.none := by
  by_cases h0 : Lexer.currentByte l = NULL
  · rw [nextToken_eq_eof l h0]
    cases hf : l.didSendEof
    · rw [eof_tok l hf]
      exact Or.inl ⟨_, rfl⟩
    · rw [eof_none l hf]
      exact Or.inr (Or.inr rfl)
  · rcases nextToken_dispatch_cases l h0 with ⟨k, v, n, _, _, heq⟩ | ⟨e, s, heq, _⟩ | ⟨ht, _⟩
    · exact Or.inl ⟨_, by rw [heq]⟩
    · exact Or.inr (Or.inl ⟨e, by rw [heq]⟩)
    · exact absurd ht h

/-- C1 witness: a lone `<` at end of input is handled totally. -/
theorem nextToken_total_outside_todo_witness :
    ¬ CrashTrigger (Lexer.new (bytesOf "<")) ∧
      ((∃ t, (Lexer.nextToken (Lexer.new (bytesOf "<"))).1 = LexOut.tok t) ∨
       (∃ e, (Lexer.nextToken (Lexer.new (bytesOf "<"))).1 = LexOut.err e) ∨
       (Lexer.nextToken (Lexer.new (bytesOf "<"))).1 = LexOut.none) :=
  ⟨by decide, nextToken_total_outside_todo _ (by decide)⟩

/-- C2: whenever a call to `next_token` returns `None` or any error, every
subsequent call — after any number of further calls — returns `None`: the
lexer neither re-emits the end-of-stream token nor emits another token or
error. -/
theorem error_or_exhaustion_is_final (l : Lexer)
    (h : (Lexer.nextToken l).1 = LexOut.none ∨ ∃ e, (Lexer.nextToken l).1 = LexOut.err e) :
    ∀ n : Nat, (Lexer.nextToken (lexIter n (Lexer.nextToken l).2)).1 = LexOut.none := by
  have hex : (Lexer.nextToken l).2.didSendEof = true ∧
      Lexer.currentByte (Lexer.nextToken l).2 = NULL := by
    by_cases h0 : Lexer.currentByte l = NULL
    · rw [nextToken_eq_eof l h0] at h ⊢
      cases hf : l.didSendEof
      · rw [eof_tok l hf] at h
        rcases h with h | ⟨e, h⟩ <;> simp at h
      · rw [eof_none l hf]
        exact ⟨hf, h0⟩
    · rcases nextToken_dispatch_cases l h0 with
        ⟨k, v, n, hn, hk, heq⟩ | ⟨e, s, heq, hs1, hs2, hs3, hs4⟩ | ⟨htrig, n, heq⟩
      · rw [heq] at h
        rcases h with h | ⟨e, h⟩ <;> simp at h
      · rw [heq]
        exact ⟨hs1, currentByte_of_index_ge (le_of_eq hs2.symm)⟩
      · rw [heq] at h
        rcases h with h | ⟨e, h⟩ <;> simp at h
  intro n
  rw [exhausted_lexIter _ hex.1 hex.2 n, exhausted_next _ hex.1 hex.2]

/-- C2 witness: after the `EmptyChar` error on `"''"`, later calls yield `None`. -/
theorem error_or_exhaustion_is_final_witness :
    ((Lexer.nextToken (Lexer.new (bytesOf "''"))).1 = LexOut.none ∨
      ∃ e, (Lexer.nextToken (Lexer.new (bytesOf "''"))).1 = LexOut.err e) ∧
    (Lexer.nextToken (lexIter 2 (Lexer.nextToken (Lexer.new (bytesOf "''"))).2)).1 =
      LexOut.none :=
  ⟨Or.inr ⟨⟨LexerErrorKind.EmptyChar, ⟨1, 2⟩⟩, by decide⟩,
   error_or_exhaustion_is_final _ (Or.inr ⟨⟨LexerErrorKind.EmptyChar, ⟨1, 2⟩⟩, by decide⟩) 2⟩

/-- C3: lexing the exact spelling of each defined multi-character operator
yields one single token of that operator's kind spanning the full spelling
(columns 1 through its length), immediately followed by the end-of-stream
token — never two shorter tokens; the longest match is always preferred. -/
theorem multichar_operator_longest_match :
    firstTwo (bytesOf "!=") = (LexOut.tok ⟨TokenKind.Neq, [], ⟨1, 1⟩, ⟨1, 2⟩⟩,
      LexOut.tok ⟨TokenKind.Eof, [], ⟨1, 2⟩, ⟨1, 2⟩⟩) ∧
    firstTwo (bytesOf "%=") = (LexOut.tok ⟨TokenKind.ModAssign, [], ⟨1, 1⟩, ⟨1, 2⟩⟩,
      LexOut.tok ⟨TokenKind.Eof, [], ⟨1, 2⟩, ⟨1, 2⟩⟩) ∧
    firstTwo (bytesOf "&&") = (LexOut.tok ⟨TokenKind.And, [], ⟨1, 1⟩, ⟨1, 2⟩⟩,
      LexOut.tok ⟨TokenKind.Eof, [], ⟨1, 2⟩, ⟨1, 2⟩⟩) ∧
    firstTwo (bytesOf "*=") = (LexOut.tok ⟨TokenKind.MultAssign, [], ⟨1, 1⟩, ⟨1, 2⟩⟩,
      LexOut.tok ⟨TokenKind.Eof, [], ⟨1, 2⟩, ⟨1, 2⟩⟩) ∧
    firstTwo (bytesOf "++") = (LexOut.tok ⟨TokenKind.Increment, [], ⟨1, 1⟩, ⟨1, 2⟩⟩,
      LexOut.tok ⟨TokenKind.Eof, [], ⟨1, 2⟩, ⟨1, 2⟩⟩) ∧
    firstTwo (bytesOf "+=") = (LexOut.tok ⟨TokenKind.AddAssign, [], ⟨1, 1⟩, ⟨1, 2⟩⟩,
      LexOut.tok ⟨TokenKind.Eof, [], ⟨1, 2⟩, ⟨1, 2⟩⟩) ∧
    firstTwo (bytesOf "--") = (LexOut.tok ⟨TokenKind.Decrement, [], ⟨1, 1⟩, ⟨1, 2⟩⟩,
      LexOut.tok ⟨TokenKind.Eof, [], ⟨1, 2⟩, ⟨1, 2⟩⟩) ∧
    firstTwo (bytesOf "-=") = (LexOut.tok ⟨TokenKind.SubAssign, [], ⟨1, 1⟩, ⟨1, 2⟩⟩,
      LexOut.tok ⟨TokenKind.Eof, [], ⟨1, 2⟩, ⟨1, 2⟩⟩) ∧
    firstTwo (bytesOf "/=") = (LexOut.tok ⟨TokenKind.DivAssign, [], ⟨1, 1⟩, ⟨1, 2⟩⟩,
      LexOut.tok ⟨TokenKind.Eof, [], ⟨1, 2⟩, ⟨1, 2⟩⟩) ∧
    firstTwo (bytesOf "<-") = (LexOut.tok ⟨TokenKind.Ins, [], ⟨1, 1⟩, ⟨1, 2⟩⟩,
      LexOut.tok ⟨TokenKind.Eof, [], ⟨1, 2⟩, ⟨1, 2⟩⟩) ∧
    firstTwo (bytesOf "<<") = (LexOut.tok ⟨TokenKind.BitLeft, [], ⟨1, 1⟩, ⟨1, 2⟩⟩,
      LexOut.tok ⟨TokenKind.Eof, [], ⟨1, 2⟩, ⟨1, 2⟩⟩) ∧
    firstTwo (bytesOf "<=") = (LexOut.tok ⟨TokenKind.Le, [], ⟨1, 1⟩, ⟨1, 2⟩⟩,
      LexOut.tok ⟨TokenKind.Eof, [], ⟨1, 2⟩, ⟨1, 2⟩⟩) ∧
    firstTwo (bytesOf "<=>") = (LexOut.tok ⟨TokenKind.Spaceship, [], ⟨1, 1⟩, ⟨1, 3⟩⟩,
      LexOut.tok ⟨TokenKind.Eof, [], ⟨1, 3⟩, ⟨1, 3⟩⟩) ∧
    firstTwo (bytesOf "==") = (LexOut.tok ⟨TokenKind.Eq, [], ⟨1, 1⟩, ⟨1, 2⟩⟩,
      LexOut.tok ⟨TokenKind.Eof, [], ⟨1, 2⟩, ⟨1, 2⟩⟩) ∧
    firstTwo (bytesOf ">=") = (LexOut.tok ⟨TokenKind.Ge, [], ⟨1, 1⟩, ⟨1, 2⟩⟩,
      LexOut.tok ⟨TokenKind.Eof, [], ⟨1, 2⟩, ⟨1, 2⟩⟩) ∧
    firstTwo (bytesOf ">>") = (LexOut.tok ⟨TokenKind.BitRight, [], ⟨1, 1⟩, ⟨1, 2⟩⟩,
      LexOut.tok ⟨TokenKind.Eof, [], ⟨1, 2⟩, ⟨1, 2⟩⟩) ∧
    firstTwo (bytesOf ">>>") = (LexOut.tok ⟨TokenKind.UnsignedRight, [], ⟨1, 1⟩, ⟨1, 3⟩⟩,
      LexOut.tok ⟨TokenKind.Eof, [], ⟨1, 3⟩, ⟨1, 3⟩⟩) ∧
    firstTwo (bytesOf "||") = (LexOut.tok ⟨TokenKind.Or, [], ⟨1, 1⟩, ⟨1, 2⟩⟩,
      LexOut.tok ⟨TokenKind.Eof, [], ⟨1, 2⟩, ⟨1, 2⟩⟩) ∧
    firstTwo (bytesOf "::") = (LexOut.tok ⟨TokenKind.ScopeRes, [], ⟨1, 1⟩, ⟨1, 2⟩⟩,
      LexOut.tok ⟨TokenKind.Eof, [], ⟨1, 2⟩, ⟨1, 2⟩⟩) ∧
    firstTwo (bytesOf "...") = (LexOut.tok ⟨TokenKind.Ellipsis, [], ⟨1, 1⟩, ⟨1, 3⟩⟩,
      LexOut.tok ⟨TokenKind.Eof, [], ⟨1, 3⟩, ⟨1, 3⟩⟩) := by
  decide

lemma tok_out_eq {r : LexOut × Lexer} {t t2 : Token} {s : Lexer}
    (h1 : r.1 = LexOut.tok t) (h2 : r = (LexOut.tok t2, s)) : t = t2 := by
  rw [h2] at h1
  dsimp only at h1
  injection h1 with h
  exact h.symm

lemma not_tok_of_err {r : LexOut × Lexer} {t : Token} {e : LexerError} {s : Lexer}
    (h2 : r = (LexOut.err e, s)) : ¬ r.1 = LexOut.tok t := by
  rw [h2]; simp

lemma not_tok_of_crash {r : LexOut × Lexer} {t : Token} {s : Lexer}
    (h2 : r = (LexOut.crash, s)) : ¬ r.1 = LexOut.tok t := by
  rw [h2]; simp

lemma unexpected_of_unrecognized (l : Lexer) (h : ¬ Recognized (Lexer.currentByte l)) :
    Lexer.nextToken l =
      (LexOut.err ⟨LexerErrorKind.UnexpectedSymbol, ⟨l.line, l.column⟩⟩, Lexer.terminate l) := by
  simp only [Recognized, not_or] at h
  obtain ⟨g0, gA, g1, g2, g3, g4, g5, g6, g7, g8, g9, g10, g11, g12, g13, g14,
    g15, g16, g17, g18, g19, g20, g21, g22, g23, g24⟩ := h
  unfold Lexer.nextToken
  rw [if_neg g0, if_neg (not_or.mpr ⟨gA.1, not_or.mpr ⟨gA.2.1, gA.2.2⟩⟩), if_neg g1, if_neg g2, if_neg g3, if_neg g4, if_neg g5,
    if_neg g6, if_neg g7, if_neg g8, if_neg g9, if_neg g10, if_neg g11, if_neg g12,
    if_neg g13, if_neg g14, if_neg (not_or.mpr ⟨g15, g16⟩), if_neg (not_or.mpr ⟨g17, g18⟩),
    if_neg (not_or.mpr ⟨g19, g20⟩), if_neg g21, if_neg g22, if_neg g23, if_neg g24]

/-- C4: an ASCII-identifier-shaped byte string lexes to a single token whose
kind is a reserved-word kind exactly when the string equals one of the 37
keyword spellings; reserved-word tokens carry an empty value, and any other
such string yields an `Identifier` token whose value is exactly the input. -/
theorem keyword_identifier_partition (bs : List Nat) (h : IdentShaped bs) :
    ∃ t, (Lexer.nextToken (Lexer.new bs)).1 = LexOut.tok t ∧
      (¬ t.kind = TokenKind.Identifier ↔ bs ∈ kwList) ∧
      (bs ∈ kwList → t.kind = Lexer.keywordKind bs ∧ t.value = []) ∧
      (¬ bs ∈ kwList → t.kind = TokenKind.Identifier ∧ t.value = bs) := by
  obtain ⟨hne, hstart, hall⟩ := h
  have hlen : 0 < bs.length := List.length_pos.mpr hne
  have hcur : Lexer.currentByte (Lexer.new bs) = bs.getD 0 NULL := rfl
  have hstart0 : IsLetterOrUnderscore (Lexer.currentByte (Lexer.new bs)) := by
    rw [hcur]; exact hstart
  have h0 : ¬ Lexer.currentByte (Lexer.new bs) = NULL := by
    rw [hcur]
    intro hzero
    rw [hzero] at hstart
    rcases hstart with ⟨a, _⟩ | ⟨a, _⟩ | a <;> exact absurd a (by decide)
  have hscan : Lexer.scanEnd bs 1 = bs.length := by
    apply scanEnd_all bs 1 (by omega)
    intro j hj1 hj2
    exact hall j hj2
  unfold Lexer.nextToken
  rw [if_neg h0, if_pos hstart0]
  simp only [Lexer.identifierOrKeyword, Lexer.new, Lexer.tokenOnLine, Lexer.tokenOnLineWithValue]
  rw [hscan]
  simp only [List.drop_zero, Nat.sub_zero, List.take_length]
  by_cases hk : bs ∈ kwList
  · have hkk := keywordKind_ne_identifier_of_mem hk
    rw [if_neg hkk]
    exact ⟨_, rfl, iff_of_true hkk hk, fun _ => ⟨rfl, rfl⟩, fun hnk => absurd hk hnk⟩
  · have hkk := keywordKind_identifier_of_not_mem hk
    rw [if_pos hkk]
    exact ⟨_, rfl, iff_of_false (fun hc => hc hkk) hk,
      fun hmem => absurd hmem hk, fun _ => ⟨hkk, rfl⟩⟩

/-- C4 witness: the non-keyword `"foo"` and the keyword `"while"` behave as
the partition requires. -/
theorem keyword_identifier_partition_witness :
    IdentShaped (bytesOf "foo") ∧
      (∃ t, (Lexer.nextToken (Lexer.new (bytesOf "foo"))).1 = LexOut.tok t ∧
        (¬ t.kind = TokenKind.Identifier ↔ bytesOf "foo" ∈ kwList) ∧
        (bytesOf "foo" ∈ kwList →
          t.kind = Lexer.keywordKind (bytesOf "foo") ∧ t.value = []) ∧
        (¬ bytesOf "foo" ∈ kwList →
          t.kind = TokenKind.Identifier ∧ t.value = bytesOf "foo")) :=
  ⟨by decide, keyword_identifier_partition _ (by decide)⟩

/-- C5: for every ASCII byte other than apostrophe and backslash, the
three-byte source apostrophe-byte-apostrophe lexes to one character-literal
token whose value is that single byte, spanning columns 1 to 3 of line 1. -/
theorem ascii_char_literal_roundtrip :
    ∀ b, b < 128 → ¬ b = APOSTROPHE → ¬ b = BACKSLASH →
      (Lexer.nextToken (Lexer.new [APOSTROPHE, b, APOSTROPHE])).1 =
        LexOut.tok ⟨TokenKind.Char, [b], ⟨1, 1⟩, ⟨1, 3⟩⟩ := by
  decide

/-- C5 witness: the literal `'f'`. -/
theorem ascii_char_literal_roundtrip_witness :
    (Lexer.nextToken (Lexer.new [APOSTROPHE, 102, APOSTROPHE])).1 =
      LexOut.tok ⟨TokenKind.Char, [102], ⟨1, 1⟩, ⟨1, 3⟩⟩ :=
  ascii_char_literal_roundtrip 102 (by decide) (by decide) (by decide)

/-- C6: every lexical error is reported at the offending byte and forces
termination: an unrecognized byte yields `UnexpectedSymbol` at the current
line and column; `''` yields `EmptyChar` at line 1 column 2; `'xd'` yields
`CharTooLong` at line 1 column 3; a non-ASCII byte inside a character
literal yields `CharOutOfBounds` at its position (line 1 column 2 here);
and after any error the next call returns `None`. -/
theorem lexical_error_positions :
    (∀ l, ¬ Recognized (Lexer.currentByte l) →
      Lexer.nextToken l =
        (LexOut.err ⟨LexerErrorKind.UnexpectedSymbol, ⟨l.line, l.column⟩⟩,
          Lexer.terminate l)) ∧
    firstTwo (bytesOf "''") = (LexOut.err ⟨LexerErrorKind.EmptyChar, ⟨1, 2⟩⟩, LexOut.none) ∧
    firstTwo (bytesOf "'xd'") =
      (LexOut.err ⟨LexerErrorKind.CharTooLong, ⟨1, 3⟩⟩, LexOut.none) ∧
    firstTwo [APOSTROPHE, 195, 156, APOSTROPHE] =
      (LexOut.err ⟨LexerErrorKind.CharOutOfBounds, ⟨1, 2⟩⟩, LexOut.none) ∧
    (∀ l e s, Lexer.nextToken l = (LexOut.err e, s) → (Lexer.nextToken s).1 = LexOut.none) := by
  refine ⟨unexpected_of_unrecognized, by decide, by decide, by decide, ?_⟩
  intro l e s heq
  by_cases h0 : Lexer.currentByte l = NULL
  · rw [nextToken_eq_eof l h0] at heq
    cases hf : l.didSendEof
    · rw [eof_tok l hf] at heq
      simp at heq
    · rw [eof_none l hf] at heq
      simp at heq
  · rcases nextToken_dispatch_cases l h0 with
      ⟨k, v, n, _, _, h2⟩ | ⟨e2, s2, h2, hs1, hs2, _⟩ | ⟨_, n, h2⟩
    · rw [heq] at h2
      simp at h2
    · rw [heq] at h2
      injection h2 with h2a h2b
      rw [← h2b] at hs1 hs2
      rw [exhausted_next s hs1 (currentByte_of_index_ge (le_of_eq hs2.symm))]
    · rw [heq] at h2
      simp at h2

/-- C6 witness: the unrecognized byte `@` errors at line 1 column 1. -/
theorem lexical_error_positions_witness :
    (Lexer.nextToken (Lexer.new [64])).1 =
      LexOut.err ⟨LexerErrorKind.UnexpectedSymbol, ⟨1, 1⟩⟩ := by
  rw [lexical_error_positions.1 (Lexer.new [64]) (by decide)]
  rfl

/-- C7: the end-of-stream token is produced exactly once — it requires the
one-shot flag to be clear, sets it, and every later call returns `None` —
and its start and end positions follow the position rule: both at the
current point when the column is 1, otherwise both at the previous column.
The literal scenarios: empty input gives Eof at line 1 column 1, and `"if"`
gives Eof at line 1 column 2. -/
theorem single_eof_token_and_position :
    (∀ l t, (Lexer.nextToken l).1 = LexOut.tok t → t.kind = TokenKind.Eof →
      l.didSendEof = false ∧ Lexer.currentByte l = NULL ∧
      (Lexer.nextToken l).2 = { l with didSendEof := true } ∧
      (l.column = 1 → t = ⟨TokenKind.Eof, [], ⟨l.line, l.column⟩, ⟨l.line, l.column⟩⟩) ∧
      (¬ l.column = 1 →
        t = ⟨TokenKind.Eof, [], ⟨l.line, l.column - 1⟩, ⟨l.line, l.column - 1⟩⟩) ∧
      (∀ n, (Lexer.nextToken (lexIter n (Lexer.nextToken l).2)).1 = LexOut.none)) ∧
    (Lexer.nextToken (Lexer.new [])).1 = LexOut.tok ⟨TokenKind.Eof, [], ⟨1, 1⟩, ⟨1, 1⟩⟩ ∧
    (Lexer.nextToken (Lexer.nextToken (Lexer.new (bytesOf "if"))).2).1 =
      LexOut.tok ⟨TokenKind.Eof, [], ⟨1, 2⟩, ⟨1, 2⟩⟩ := by
  refine ⟨?_, by decide, by decide⟩
  intro l t htok hkind
  have h0 : Lexer.currentByte l = NULL := by
    by_contra h0
    rcases nextToken_dispatch_cases l h0 with ⟨k, v, n, _, hk, h2⟩ | ⟨e, s, h2, _⟩ | ⟨_, n, h2⟩
    · have ht := tok_out_eq htok h2
      rw [ht] at hkind
      exact hk hkind
    · exact not_tok_of_err h2 htok
    · exact not_tok_of_crash h2 htok
  have hf : l.didSendEof = false := by
    cases hf : l.didSendEof
    · rfl
    · rw [nextToken_eq_eof l h0, eof_none l hf] at htok
      simp at htok
  have heq := nextToken_eq_eof l h0
  rw [eof_tok l hf] at heq
  have ht := tok_out_eq htok heq
  have hstate : (Lexer.nextToken l).2 = { l with didSendEof := true } := by rw [heq]
  have h1 : ({ l with didSendEof := true } : Lexer).didSendEof = true := rfl
  have h2 : Lexer.currentByte { l with didSendEof := true } = NULL := h0
  refine ⟨hf, h0, hstate, ?_, ?_, ?_⟩
  · intro hc
    rw [ht, if_pos hc]
  · intro hc
    rw [ht, if_neg hc]
  · intro n
    rw [hstate, exhausted_lexIter _ h1 h2 n, exhausted_next _ h1 h2]

/-- C7 witness: on empty input, after the single Eof token every further
call returns `None`. -/
theorem single_eof_token_and_position_witness :
    (Lexer.nextToken (lexIter 1 (Lexer.nextToken (Lexer.new [])).2)).1 = LexOut.none :=
  (single_eof_token_and_position.1 (Lexer.new [])
    ⟨TokenKind.Eof, [], ⟨1, 1⟩, ⟨1, 1⟩⟩ (by decide) (by decide)).2.2.2.2.2 1

/-- C8: every token has its start and end positions on one line, and every
byte-consuming token (everything except the zero-width Eof) spans from the
column where the lexer started to exactly one column before the lexer's
resulting column, consuming end-minus-start-plus-one bytes. -/
theorem token_span_single_line :
    ∀ l t, (Lexer.nextToken l).1 = LexOut.tok t →
      t.startPosition.line = t.endPosition.line ∧
      (¬ t.kind = TokenKind.Eof →
        t.startPosition.column = l.column ∧
        t.endPosition.column + 1 = (Lexer.nextToken l).2.column ∧
        t.endPosition.column + 1 =
          t.startPosition.column + ((Lexer.nextToken l).2.index - l.index)) ∧
      (t.kind = TokenKind.Eof → t.startPosition = t.endPosition) := by
  intro l t htok
  by_cases h0 : Lexer.currentByte l = NULL
  · have hf : l.didSendEof = false := by
      cases hf : l.didSendEof
      · rfl
      · rw [nextToken_eq_eof l h0, eof_none l hf] at htok
        simp at htok
    have heq := nextToken_eq_eof l h0
    rw [eof_tok l hf] at heq
    have ht := tok_out_eq htok heq
    refine ⟨by rw [ht], ?_, ?_⟩
    · intro hk
      exact absurd (by rw [ht]) hk
    · intro
      rw [ht]
  · rcases nextToken_dispatch_cases l h0 with ⟨k, v, n, hn, hk, h2⟩ | ⟨e, s, h2, _⟩ | ⟨_, n, h2⟩
    · have ht := tok_out_eq htok h2
      have hsnd : (Lexer.nextToken l).2 = bump l n := by rw [h2]
      refine ⟨by rw [ht], ?_, ?_⟩
      · intro
        refine ⟨by rw [ht], ?_, ?_⟩
        · rw [ht, hsnd]
          show l.column + n - 1 + 1 = l.column + n
          omega
        · rw [ht, hsnd]
          show l.column + n - 1 + 1 = l.column + (l.index + n - l.index)
          omega
      · intro hkind
        rw [ht] at hkind
        exact absurd hkind hk
    · exact absurd htok (not_tok_of_err h2)
    · exact absurd htok (not_tok_of_crash h2)

/-- C8 witness: the `Le` token of `"<="` spans columns 1 to 2 on line 1. -/
theorem token_span_single_line_witness :
    (Lexer.nextToken (Lexer.new (bytesOf "<="))).1 =
        LexOut.tok ⟨TokenKind.Le, [], ⟨1, 1⟩, ⟨1, 2⟩⟩ ∧
      (1 : Nat) = 1 ∧
      ¬ TokenKind.Le = TokenKind.Eof ∧
      (2 : Nat) + 1 = (Lexer.nextToken (Lexer.new (bytesOf "<="))).2.column := by
  refine ⟨by decide, ?_, by decide, ?_⟩
  · exact (token_span_single_line (Lexer.new (bytesOf "<="))
      ⟨TokenKind.Le, [], ⟨1, 1⟩, ⟨1, 2⟩⟩ (by decide)).1
  · exact ((token_span_single_line (Lexer.new (bytesOf "<="))
      ⟨TokenKind.Le, [], ⟨1, 1⟩, ⟨1, 2⟩⟩ (by decide)).2.1 (by decide)).2.1

/-- C9: a whitespace first byte (space, tab, carriage return or line feed)
is not recognized by the dispatch, so the first call errors with
`UnexpectedSymbol` at line 1 column 1; and no call to `next_token` ever
changes the line counter, because no handler invokes the line-advancing
primitive. -/
theorem whitespace_unexpected_and_line_constant :
    (∀ b rest, b = 32 ∨ b = 9 ∨ b = 13 ∨ b = 10 →
      (Lexer.nextToken (Lexer.new (b :: rest))).1 =
        LexOut.err ⟨LexerErrorKind.UnexpectedSymbol, ⟨1, 1⟩⟩) ∧
    (∀ l, (Lexer.nextToken l).2.line = l.line) := by
  constructor
  · intro b rest hb
    have hnr : ¬ Recognized (Lexer.currentByte (Lexer.new (b :: rest))) := by
      show ¬ Recognized b
      rcases hb with rfl | rfl | rfl | rfl <;> decide
    rw [unexpected_of_unrecognized _ hnr]
    rfl
  · intro l
    by_cases h0 : Lexer.currentByte l = NULL
    · rw [nextToken_eq_eof l h0]
      cases hf : l.didSendEof
      · rw [eof_tok l hf]
      · rw [eof_none l hf]
    · rcases nextToken_dispatch_cases l h0 with
        ⟨k, v, n, _, _, h2⟩ | ⟨e, s, h2, _, _, _, h4⟩ | ⟨_, n, h2⟩
      · rw [h2]
        rfl
      · rw [h2]
        exact h4
      · rw [h2]
        rfl

/-- C9 witness: a leading space before `"if"` errors at line 1 column 1. -/
theorem whitespace_unexpected_and_line_constant_witness :
    (Lexer.nextToken (Lexer.new (32 :: bytesOf "if"))).1 =
      LexOut.err ⟨LexerErrorKind.UnexpectedSymbol, ⟨1, 1⟩⟩ :=
  whitespace_unexpected_and_line_constant.1 32 (bytesOf "if") (Or.inl rfl)

/-- C10: when the cursor reaches an embedded NUL byte (with more source
behind it), `next_token` treats it exactly as end-of-stream: it emits the
Eof token, only the one-shot flag changes, and every subsequent call
returns `None` with the state frozen — the bytes after the NUL are never
scanned. -/
theorem embedded_nul_acts_as_eof (pre post : List Nat) (line column : Nat) :
    (∃ t, (Lexer.nextToken ⟨pre ++ NULL :: post, pre.length, line, column, false⟩).1 =
        LexOut.tok t ∧ t.kind = TokenKind.Eof) ∧
    (Lexer.nextToken ⟨pre ++ NULL :: post, pre.length, line, column, false⟩).2 =
      ⟨pre ++ NULL :: post, pre.length, line, column, true⟩ ∧
    ∀ n, lexIter n
        (Lexer.nextToken ⟨pre ++ NULL :: post, pre.length, line, column, false⟩).2 =
        ⟨pre ++ NULL :: post, pre.length, line, column, true⟩ ∧
      (Lexer.nextToken (lexIter n
          (Lexer.nextToken ⟨pre ++ NULL :: post, pre.length, line, column, false⟩).2)).1 =
        LexOut.none := by
  have h0 : Lexer.currentByte ⟨pre ++ NULL :: post, pre.length, line, column, false⟩ = NULL := by
    show (pre ++ NULL :: post).getD pre.length NULL = NULL
    rw [List.getD_append_right _ _ _ _ (le_refl _), Nat.sub_self]
    rfl
  have hf : (⟨pre ++ NULL :: post, pre.length, line, column, false⟩ : Lexer).didSendEof = false :=
    rfl
  have heq := nextToken_eq_eof _ h0
  rw [eof_tok _ hf] at heq
  have hsnd : (Lexer.nextToken ⟨pre ++ NULL :: post, pre.length, line, column, false⟩).2 =
      ⟨pre ++ NULL :: post, pre.length, line, column, true⟩ := by
    rw [heq]
  have h1 : (⟨pre ++ NULL :: post, pre.length, line, column, true⟩ : Lexer).didSendEof = true := rfl
  have h2 : Lexer.currentByte ⟨pre ++ NULL :: post, pre.length, line, column, true⟩ = NULL := h0
  refine ⟨⟨_, by rw [heq], rfl⟩, hsnd, ?_⟩
  intro n
  rw [hsnd, exhausted_lexIter _ h1 h2 n]
  exact ⟨rfl, by rw [exhausted_next _ h1 h2]⟩

/-- C10 witness: a NUL between `+` and `,` freezes the lexer at index 1. -/
theorem embedded_nul_acts_as_eof_witness :
    (Lexer.nextToken ⟨[43] ++ NULL :: [44], 1, 1, 2, false⟩).2 =
      ⟨[43] ++ NULL :: [44], 1, 1, 2, true⟩ :=
  (embedded_nul_acts_as_eof [43] [44] 1 2).2.1
